import Mathlib

/-!
Shallow embedding of `src/gemini.py`, a command-line client for the Gemini
generative-language API.  The program has two parts:

* `call_gemini prompt_text model_name` reads the `GEMINI_API_KEY` environment
  variable, builds a request from a fixed preamble plus the prompt, performs a
  single generation call, and returns either the stripped response text or an
  error string (every exception is caught and converted to a string).
* `main` resolves the prompt from positional arguments (joined with single
  spaces) or, when there are none, from stripped standard input; an empty
  stdin-resolved prompt terminates with an error and help text on stderr and
  exit status 1.  Otherwise the result of `call_gemini` is printed to stdout
  and the exit status is 1 exactly when the lower-cased result starts with
  the literal "error:".

The external world is made explicit: the environment variable is an
`Option String`, and the behaviour of the external client library during the
call is an `ApiOutcome` (it raises with some description, or returns a
response with a number of candidates and a text accessor that itself either
raises or yields a string).  Effects are recorded in result structures:
which streams received which lines, whether the client was configured and
invoked, what request text was submitted, and the process exit code.

The Python string methods used by the program are embedded structurally
over the character list of the string, so that every definition evaluates
by kernel reduction: `pyStrip` for `str.strip()`, `pyLower` for
`str.lower()` and `pyStartsWith` for `str.startswith(p)`.
-/

/-- Python `str.strip()` with no arguments: remove leading and trailing
whitespace characters, embedded over the character list. -/
def pyStrip (s : String) : String :=
  String.mk (((s.data.dropWhile Char.isWhitespace).reverse.dropWhile
      Char.isWhitespace).reverse)

/-- Python `str.lower()`: map every character to lower case (the prompts
and error strings involved are ASCII, where `Char.toLower` coincides with
the Python mapping). -/
def pyLower (s : String) : String := String.mk (s.data.map Char.toLower)

/-- Auxiliary for `pyStartsWith`: the second list is an initial segment of
the first. -/
def charsStartWith : List Char → List Char → Bool
  | _, [] => true
  | [], _ :: _ => false
  | a :: as, b :: bs => a == b && charsStartWith as bs

/-- Python `str.startswith(p)`: `p` is an initial segment of `s`. -/
def pyStartsWith (s p : String) : Bool := charsStartWith s.data p.data

/-- Outcome of the external generation call in `call_gemini`: the library
either raises an exception (carrying the textual description that Python
interpolates via `str(e)`), or returns a response holding a candidate count
and a `text` accessor which may itself raise when accessed. -/
inductive ApiOutcome : Type where
  | raises (desc : String)
  | returns (candidates : Nat) (textResult : Except String String)
deriving Repr

/-- Observable outcome of one `call_gemini` invocation: the returned string,
whether `genai.configure` was reached, whether the generation call was
reached, and the full request text submitted to it (when it was reached). -/
structure CallResult : Type where
  result : String
  configured : Bool
  generated : Bool
  submitted : Option String
deriving Repr, DecidableEq

/-- The exact string returned when `GEMINI_API_KEY` is unset or empty
(`gemini.py` line 39). -/
def credErrorMsg : String := "Error: GEMINI_API_KEY environment variable not set."

/-- The exact string returned when the response has no candidates
(`gemini.py` line 54). -/
def noContentMsg : String := "Error: No content generated (check safety settings or prompt)."

/-- The fixed system preamble prepended to every prompt
(`gemini.py` line 43). -/
def system_prompt : String := "Context: Linux. Provide a concise response:\n"

/-- The literal text before `str(e)` in the catch-all handler
(`gemini.py` line 58). -/
def apiErrorText : String := "Error calling Gemini API: "

/-- Embedding of `call_gemini(prompt_text, model_name)` (`gemini.py` lines
24-58).  `env` is the value of `os.environ.get("GEMINI_API_KEY")` (`none`
when unset); Python `if not api_key` is true for both `None` and the empty
string.  `api` is the behaviour of the external library during the call.
The Python function never raises: the embedding is a total function. -/
def call_gemini (prompt_text : String) (model_name : String)
    (env : Option String) (api : ApiOutcome) : CallResult :=
  let api_key : String := match env with | none => "" | some k => k
  if api_key = "" then
    { result := credErrorMsg, configured := false, generated := false,
      submitted := none }
  else
    let full_prompt := system_prompt ++ prompt_text
    match api with
    | .raises d =>
        { result := apiErrorText ++ d, configured := true, generated := true,
          submitted := some full_prompt }
    | .returns cands textRes =>
        if cands = 0 then
          { result := noContentMsg, configured := true, generated := true,
            submitted := some full_prompt }
        else
          match textRes with
          | .error d =>
              { result := apiErrorText ++ d, configured := true,
                generated := true, submitted := some full_prompt }
          | .ok t =>
              { result := pyStrip t, configured := true, generated := true,
                submitted := some full_prompt }

/-- The interactive hint printed to stderr when stdin is a terminal
(`gemini.py` line 101). -/
def interactiveHint : String := "Enter prompt (press Ctrl+D on Linux/macOS or Ctrl+Z then Enter on Windows to end):"

/-- The error message printed to stderr when no prompt is resolvable
(`gemini.py` line 105). -/
def noPromptError : String := "Error: No prompt provided either as argument or via stdin."

/-- Observable outcome of one run of `main`: lines printed to stdout and
stderr, whether the argparse help text went to stderr, the exit code,
whether `call_gemini` was invoked and with which prompt, and whether
standard input was read. -/
structure MainResult : Type where
  stdout : List String
  stderr : List String
  helpToStderr : Bool
  exitCode : Nat
  apiCalled : Bool
  promptUsed : Option String
  stdinRead : Bool
deriving Repr, DecidableEq

/-- The tail of `main` after a prompt has been resolved (`gemini.py` lines
110-117): call the API, print the result to stdout, and exit 1 when the
lower-cased result starts with "error:", else 0. -/
def finishRun (prompt model : String) (preStderr : List String)
    (readStdin : Bool) (env : Option String) (api : ApiOutcome) : MainResult :=
  let c := call_gemini prompt model env api
  { stdout := [c.result], stderr := preStderr, helpToStderr := false,
    exitCode := if pyStartsWith (pyLower c.result) "error:" then 1 else 0,
    apiCalled := true, promptUsed := some prompt, stdinRead := readStdin }

/-- Embedding of `main()` (`gemini.py` lines 60-117).  `prompt_parts` is the
parsed positional-argument list, `model` the value of the `--model` flag,
`stdinContent` the full content standard input would deliver, `isatty`
whether stdin is a terminal.  Python `if args.prompt_parts` is list
truthiness: any non-empty list, even of empty strings, takes the argument
branch, where the prompt is the parts joined by single spaces and stdin is
never read.  Only the stdin branch strips and checks for emptiness. -/
def Gemini.main (prompt_parts : List String) (model : String)
    (stdinContent : String) (isatty : Bool)
    (env : Option String) (api : ApiOutcome) : MainResult :=
  if prompt_parts.isEmpty then
    let hint : List String := if isatty then [interactiveHint] else []
    let prompt := pyStrip stdinContent
    if prompt = "" then
      { stdout := [], stderr := hint ++ [noPromptError], helpToStderr := true,
        exitCode := 1, apiCalled := false, promptUsed := none,
        stdinRead := true }
    else
      finishRun prompt model hint true env api
  else
    finishRun (String.intercalate " " prompt_parts) model [] false env api

/-- The prompt `main` resolves before any emptiness check, factored out of
the two branches of `main`: positional arguments joined by single spaces
when present, otherwise stripped stdin content. -/
def resolvedPrompt (prompt_parts : List String) (stdinContent : String) : String :=
  if prompt_parts.isEmpty then pyStrip stdinContent
  else String.intercalate " " prompt_parts

/-- Whenever `main` invokes the API layer, the prompt it passes is exactly
`resolvedPrompt` of its inputs: the factored-out definition matches the
inline resolution logic of `main`. -/
theorem main_promptUsed_eq (prompt_parts : List String) (model : String)
    (stdinContent : String) (isatty : Bool) (env : Option String)
    (api : ApiOutcome)
    (h : (Gemini.main prompt_parts model stdinContent isatty env api).apiCalled = true) :
    (Gemini.main prompt_parts model stdinContent isatty env api).promptUsed
      = some (resolvedPrompt prompt_parts stdinContent) := by
  unfold Gemini.main resolvedPrompt at *
  by_cases hp : prompt_parts.isEmpty
  · simp only [hp, if_true] at *
    by_cases hs : pyStrip stdinContent = ""
    · simp [hs] at h
    · simp [hs, finishRun] at *
  · simp [hp, finishRun] at *

/-- `resolvedPrompt` with no positional arguments is the stripped stdin. -/
theorem resolvedPrompt_nil (s : String) : resolvedPrompt [] s = pyStrip s := rfl

/-- `resolvedPrompt` with positional arguments joins them with spaces. -/
theorem resolvedPrompt_cons (a : String) (l : List String) (s : String) :
    resolvedPrompt (a :: l) s = String.intercalate " " (a :: l) := rfl

/-- C4: if the GEMINI_API_KEY environment variable is unset or empty,
`call_gemini` returns exactly the credential error string, and no client is
configured or invoked and no request text is submitted. -/
theorem c4_missing_key (prompt model : String) (env : Option String)
    (api : ApiOutcome) (h : env = none ∨ env = some "") :
    call_gemini prompt model env api =
      { result := "Error: GEMINI_API_KEY environment variable not set.",
        configured := false, generated := false, submitted := none } := by
  rcases h with h | h <;> subst h <;> rfl

/-- Witness for C4 at a concrete input with the variable unset. -/
theorem c4_missing_key_witness :
    (none = (none : Option String) ∨ none = some "") ∧
    call_gemini "hello" "gemini-1.5-flash-latest" none (ApiOutcome.raises "x") =
      { result := "Error: GEMINI_API_KEY environment variable not set.",
        configured := false, generated := false, submitted := none } :=
  ⟨Or.inl rfl,
   c4_missing_key "hello" "gemini-1.5-flash-latest" none (ApiOutcome.raises "x") (Or.inl rfl)⟩

/-- C6: for every non-empty sequence of positional arguments, the prompt
passed to the API layer is the arguments joined by single spaces, and
standard input is not read. -/
theorem c6_args_joined (prompt_parts : List String) (model stdinContent : String)
    (isatty : Bool) (env : Option String) (api : ApiOutcome)
    (h : prompt_parts ≠ []) :
    (Gemini.main prompt_parts model stdinContent isatty env api).promptUsed
        = some (String.intercalate " " prompt_parts) ∧
    (Gemini.main prompt_parts model stdinContent isatty env api).stdinRead = false := by
  have hp : prompt_parts.isEmpty = false := by
    cases prompt_parts with
    | nil => exact absurd rfl h
    | cons a l => rfl
  constructor <;> simp [Gemini.main, hp, finishRun]

/-- Witness for C6 at the concrete arguments ["What", "is", "2+2?"]. -/
theorem c6_args_joined_witness :
    ["What", "is", "2+2?"] ≠ ([] : List String) ∧
    ((Gemini.main ["What", "is", "2+2?"] "m" " unread " false none
        (ApiOutcome.raises "x")).promptUsed
          = some (String.intercalate " " ["What", "is", "2+2?"]) ∧
     (Gemini.main ["What", "is", "2+2?"] "m" " unread " false none
        (ApiOutcome.raises "x")).stdinRead = false) :=
  ⟨by decide,
   c6_args_joined ["What", "is", "2+2?"] "m" " unread " false none
     (ApiOutcome.raises "x") (by decide)⟩

/-- C7: with no positional arguments, the resolved prompt is the stdin
content with surrounding whitespace removed, and when that is non-empty it
is exactly what the API layer receives, after stdin was read. -/
theorem c7_stdin_stripped (model stdinContent : String) (isatty : Bool)
    (env : Option String) (api : ApiOutcome) (h : stdinContent ≠ "") :
    resolvedPrompt [] stdinContent = pyStrip stdinContent ∧
    (pyStrip stdinContent ≠ "" →
      (Gemini.main [] model stdinContent isatty env api).promptUsed
          = some (pyStrip stdinContent) ∧
      (Gemini.main [] model stdinContent isatty env api).stdinRead = true) := by
  refine ⟨rfl, fun hs => ?_⟩
  constructor <;> simp [Gemini.main, hs, finishRun]

/-- Witness for C7 at the concrete stdin content "  hello there\n". -/
theorem c7_stdin_stripped_witness :
    "  hello there\n" ≠ "" ∧
    (resolvedPrompt [] "  hello there\n" = pyStrip "  hello there\n" ∧
     (pyStrip "  hello there\n" ≠ "" →
       (Gemini.main [] "m" "  hello there\n" false none
           (ApiOutcome.raises "x")).promptUsed = some (pyStrip "  hello there\n") ∧
       (Gemini.main [] "m" "  hello there\n" false none
           (ApiOutcome.raises "x")).stdinRead = true)) :=
  ⟨by decide,
   c7_stdin_stripped "m" "  hello there\n" false none (ApiOutcome.raises "x") (by decide)⟩

/-- C9: whenever the API key is present and non-empty, the full request text
submitted to the generation call is the fixed preamble followed by the
prompt, for every library behaviour. -/
theorem c9_full_request (prompt model k : String) (api : ApiOutcome)
    (hk : k ≠ "") :
    (call_gemini prompt model (some k) api).submitted
        = some ("Context: Linux. Provide a concise response:\n" ++ prompt) := by
  cases api with
  | raises d => simp [call_gemini, hk, system_prompt]
  | returns cands textRes =>
      cases textRes <;> by_cases hc : cands = 0 <;>
        simp [call_gemini, hk, hc, system_prompt]

/-- Witness for C9 at a concrete key, prompt and raising library. -/
theorem c9_full_request_witness :
    "key" ≠ "" ∧
    (call_gemini "list files" "m" (some "key") (ApiOutcome.raises "x")).submitted
        = some ("Context: Linux. Provide a concise response:\n" ++ "list files") :=
  ⟨by decide, c9_full_request "list files" "m" "key" (ApiOutcome.raises "x") (by decide)⟩

/-- C10: a non-empty positional-argument list all of whose elements are
empty never takes the empty-prompt error path: the API layer is invoked,
no help text goes to stderr, stdin is not read, and for the single-element
list [""] the prompt passed to the API is the empty string. -/
theorem c10_empty_args_still_call (prompt_parts : List String)
    (model stdinContent : String) (isatty : Bool) (env : Option String)
    (api : ApiOutcome) (hne : prompt_parts ≠ [])
    (hall : ∀ x ∈ prompt_parts, x = "") :
    (Gemini.main prompt_parts model stdinContent isatty env api).apiCalled = true ∧
    (Gemini.main prompt_parts model stdinContent isatty env api).helpToStderr = false ∧
    (Gemini.main prompt_parts model stdinContent isatty env api).stdinRead = false ∧
    (prompt_parts = [""] →
      (Gemini.main prompt_parts model stdinContent isatty env api).promptUsed
          = some "") := by
  have hp : prompt_parts.isEmpty = false := by
    cases prompt_parts with
    | nil => exact absurd rfl hne
    | cons a l => rfl
  refine ⟨?_, ?_, ?_, fun he => ?_⟩
  · simp [Gemini.main, hp, finishRun]
  · simp [Gemini.main, hp, finishRun]
  · simp [Gemini.main, hp, finishRun]
  · subst he; rfl

/-- Witness for C10 at the single empty positional argument. -/
theorem c10_empty_args_still_call_witness :
    ([""] : List String) ≠ [] ∧
    ((Gemini.main [""] "m" "ignored" false (some "key")
        (ApiOutcome.raises "x")).apiCalled = true ∧
     (Gemini.main [""] "m" "ignored" false (some "key")
        (ApiOutcome.raises "x")).helpToStderr = false ∧
     (Gemini.main [""] "m" "ignored" false (some "key")
        (ApiOutcome.raises "x")).stdinRead = false ∧
     (([""] : List String) = [""] →
       (Gemini.main [""] "m" "ignored" false (some "key")
          (ApiOutcome.raises "x")).promptUsed = some "")) :=
  ⟨by decide,
   c10_empty_args_still_call [""] "m" "ignored" false (some "key")
     (ApiOutcome.raises "x") (by decide) (by intro x hx; simpa using hx)⟩

/-- C5: the exit code is 1 exactly when either the stdin branch resolved an
empty prompt (the no-prompt termination) or the Result returned by the API
layer for the resolved prompt starts, lower-cased, with "error:"; it is 0
otherwise. -/
theorem c5_exit_code (prompt_parts : List String) (model stdinContent : String)
    (isatty : Bool) (env : Option String) (api : ApiOutcome) :
    (Gemini.main prompt_parts model stdinContent isatty env api).exitCode = 1 ↔
      ((prompt_parts = [] ∧ pyStrip stdinContent = "") ∨
       pyStartsWith
         (pyLower (call_gemini (resolvedPrompt prompt_parts stdinContent) model env api).result)
         "error:" = true) := by
  cases prompt_parts with
  | nil =>
      by_cases hs : pyStrip stdinContent = ""
      · simp [Gemini.main, hs]
      · cases hb : pyStartsWith (pyLower (call_gemini (pyStrip stdinContent) model env api).result) "error:" <;>
          simp [Gemini.main, finishRun, resolvedPrompt, hs, hb]
  | cons a l =>
      cases hb : pyStartsWith (pyLower (call_gemini (String.intercalate " " (a :: l)) model env api).result) "error:" <;>
        simp [Gemini.main, finishRun, resolvedPrompt, hb]

/-- C1 counterexample: with the single positional argument "" the resolved
prompt is the empty string, yet the program invokes the API layer and no
help text goes to the error stream, contradicting the claim that every
empty resolved prompt ends in the error-and-help termination. -/
theorem c1_empty_prompt_counterexample :
    resolvedPrompt [""] "" = "" ∧
    (Gemini.main [""] "gemini-1.5-flash-latest" "" false none
        (ApiOutcome.raises "boom")).apiCalled = true ∧
    (Gemini.main [""] "gemini-1.5-flash-latest" "" false none
        (ApiOutcome.raises "boom")).helpToStderr = false := ⟨rfl, rfl, rfl⟩

/-- C1 amended: the empty-prompt termination applies exactly to the stdin
branch: when there are no positional arguments and the stripped stdin is
empty, the program prints the no-prompt error to stderr together with the
help text, exits with status 1, prints nothing to stdout, and never invokes
the API layer. -/
theorem c1_empty_stdin_terminates (prompt_parts : List String)
    (model stdinContent : String) (isatty : Bool) (env : Option String)
    (api : ApiOutcome) (hp : prompt_parts = [])
    (hs : pyStrip stdinContent = "") :
    (Gemini.main prompt_parts model stdinContent isatty env api).exitCode = 1 ∧
    (Gemini.main prompt_parts model stdinContent isatty env api).apiCalled = false ∧
    (Gemini.main prompt_parts model stdinContent isatty env api).helpToStderr = true ∧
    noPromptError ∈ (Gemini.main prompt_parts model stdinContent isatty env api).stderr ∧
    (Gemini.main prompt_parts model stdinContent isatty env api).stdout = [] := by
  subst hp
  refine ⟨?_, ?_, ?_, ?_, ?_⟩ <;> simp [Gemini.main, hs]

/-- Witness for the amended C1 at empty args and whitespace-only stdin. -/
theorem c1_empty_stdin_terminates_witness :
    ([] : List String) = [] ∧ pyStrip "  \n" = "" ∧
    ((Gemini.main [] "m" "  \n" true (some "key")
        (ApiOutcome.returns 1 (Except.ok "hi"))).exitCode = 1 ∧
     (Gemini.main [] "m" "  \n" true (some "key")
        (ApiOutcome.returns 1 (Except.ok "hi"))).apiCalled = false ∧
     (Gemini.main [] "m" "  \n" true (some "key")
        (ApiOutcome.returns 1 (Except.ok "hi"))).helpToStderr = true ∧
     noPromptError ∈ (Gemini.main [] "m" "  \n" true (some "key")
        (ApiOutcome.returns 1 (Except.ok "hi"))).stderr ∧
     (Gemini.main [] "m" "  \n" true (some "key")
        (ApiOutcome.returns 1 (Except.ok "hi"))).stdout = []) :=
  ⟨rfl, by decide,
   c1_empty_stdin_terminates [] "m" "  \n" true (some "key")
     (ApiOutcome.returns 1 (Except.ok "hi")) rfl (by decide)⟩

/-- C2 is a code bug: the exception-kind error Result is printed to
standard output as the claim says, but the exit code is 0, not 1, because
the lower-cased Result starts with "error calling", which does not match
the text "error:" tested on line 116 of gemini.py — contradicting the
comment there ("Exit with error code if the result indicates an error")
and the claim. -/
theorem c2_exception_result_exits_zero :
    (Gemini.main ["hi"] "gemini-1.5-flash-latest" "" false (some "key")
        (ApiOutcome.raises "boom")).stdout = ["Error calling Gemini API: boom"] ∧
    (Gemini.main ["hi"] "gemini-1.5-flash-latest" "" false (some "key")
        (ApiOutcome.raises "boom")).exitCode = 0 ∧
    pyStartsWith (pyLower "Error calling Gemini API: boom") "error:" = false := by
  refine ⟨rfl, ?_, ?_⟩ <;> decide

/-- C3 counterexample: an exception whose textual representation is empty
(Python str(e) can be "") yields exactly the bare literal
"Error calling Gemini API: " with nothing after it, so the description
following the fixed text is empty, not non-empty as claimed. -/
theorem c3_empty_description_counterexample :
    (call_gemini "p" "m" (some "k") (ApiOutcome.raises "")).result
        = "Error calling Gemini API: " ∧
    (∀ d : String,
      (call_gemini "p" "m" (some "k") (ApiOutcome.raises "")).result
          = "Error calling Gemini API: " ++ d → d = "") := by
  refine ⟨rfl, fun d h => ?_⟩
  have hres : ("Error calling Gemini API: " : String)
      = "Error calling Gemini API: " ++ d := h
  have hdata := congrArg String.data hres
  rw [String.data_append] at hdata
  have hlen := congrArg List.length hdata
  rw [List.length_append] at hlen
  have hnil : d.data = [] := List.eq_nil_of_length_eq_zero (by omega)
  cases d with
  | mk l =>
      cases hnil
      rfl

/-- C3 amended: `call_gemini` never raises (the embedding is a total
function), and every exception — whether from the generation call or from
the text accessor — produces exactly "Error calling Gemini API: " followed
by the textual representation of the exception, which may be empty. -/
theorem c3_exception_format (prompt model k d : String) (hk : k ≠ "") :
    (call_gemini prompt model (some k) (ApiOutcome.raises d)).result
        = "Error calling Gemini API: " ++ d ∧
    (∀ cands : Nat, ∀ d2 : String, cands ≠ 0 →
      (call_gemini prompt model (some k)
          (ApiOutcome.returns cands (Except.error d2))).result
        = "Error calling Gemini API: " ++ d2) := by
  constructor
  · simp [call_gemini, hk, apiErrorText]
  · intro cands d2 hc
    simp [call_gemini, hk, hc, apiErrorText]

/-- Witness for the amended C3 at a concrete key and description. -/
theorem c3_exception_format_witness :
    "key" ≠ "" ∧
    ((call_gemini "p" "m" (some "key") (ApiOutcome.raises "boom")).result
        = "Error calling Gemini API: " ++ "boom" ∧
     (∀ cands : Nat, ∀ d2 : String, cands ≠ 0 →
       (call_gemini "p" "m" (some "key")
           (ApiOutcome.returns cands (Except.error d2))).result
         = "Error calling Gemini API: " ++ d2)) :=
  ⟨by decide, c3_exception_format "p" "m" "key" "boom" (by decide)⟩

/-- C8: with a key present, a response with no candidates yields exactly the
no-content error string, and a response with at least one candidate whose
text accessor yields t produces t with surrounding whitespace stripped. -/
theorem c8_candidates (prompt model k : String) (cands : Nat)
    (textRes : Except String String) (hk : k ≠ "") :
    (cands = 0 →
      (call_gemini prompt model (some k) (ApiOutcome.returns cands textRes)).result
        = "Error: No content generated (check safety settings or prompt).") ∧
    (∀ t, cands ≠ 0 → textRes = Except.ok t →
      (call_gemini prompt model (some k) (ApiOutcome.returns cands textRes)).result
        = pyStrip t) := by
  constructor
  · intro hc
    subst hc
    simp [call_gemini, hk, noContentMsg]
  · intro t hc ht
    subst ht
    simp [call_gemini, hk, hc]

/-- Witness for C8 in the no-candidates case at a concrete input. -/
theorem c8_candidates_witness :
    "key" ≠ "" ∧
    ((0 = 0 →
       (call_gemini "p" "m" (some "key")
           (ApiOutcome.returns 0 (Except.ok " hi " : Except String String))).result
         = "Error: No content generated (check safety settings or prompt).") ∧
     (∀ t, 0 ≠ 0 → (Except.ok " hi " : Except String String) = Except.ok t →
       (call_gemini "p" "m" (some "key")
           (ApiOutcome.returns 0 (Except.ok " hi " : Except String String))).result
         = pyStrip t)) :=
  ⟨by decide,
   c8_candidates "p" "m" "key" 0 (Except.ok " hi " : Except String String) (by decide)⟩
